import Mathlib

/-!
Verification of the task event core of the todo backend.

The definitions below are shallow embeddings of the Python sources:
  backend/events/publisher.py         (sequence allocator, publish_event)
  backend/events/schemas.py           (CloudEvent envelope builders)
  backend/services/audit/logger.py    (write_audit_log)
  backend/services/recurring-task/task_creator.py
  backend/services/recurring-task/consumer.py and main.py
  backend/services/sync/websocket.py  (ConnectionManager)
  backend/routers/tasks.py            (create_task event emission)

Nondeterministic effects (fresh UUIDs, wall-clock time, HTTP and database
outcomes) are passed in as explicit parameters; Python exceptions are
modelled with Except; dictionaries become functions or finite structures.
-/

namespace TodoEvents

/-! ### Sequence allocator (events/publisher.py, _get_next_sequence)

The module-level dict _sequence_counters is modelled as a total function
from task id to the stored counter, with 0 for absent keys, matching
_sequence_counters.get(task_id, 0). -/

/-- The counter state: task_id to last issued sequence (0 when unseen). -/
def SeqState : Type := String → Nat

/-- Initial state: the empty dict, every get defaults to 0. -/
def seqInit : SeqState := fun _ => 0

/-- One call of _get_next_sequence: reads the current counter (default 0),
adds 1, stores it back, and returns it. -/
def getNextSequence (s : SeqState) (task_id : String) : Nat × SeqState :=
  let current := s task_id
  let next_seq := current + 1
  (next_seq, Function.update s task_id next_seq)

/-- Run a list of allocator calls (the i-th element is the task_id of the
i-th call), returning the list of returned sequence numbers. -/
def runSeq (s : SeqState) : List String → List Nat
  | [] => []
  | t :: ts =>
    let r := getNextSequence s t
    r.1 :: runSeq r.2 ts

/-! ### CloudEvent envelope builders (events/schemas.py)

uuid4() and datetime.now() are nondeterministic, so the fresh event id and
the timestamp string are explicit parameters of each builder. -/

/-- Payload for task lifecycle events (TaskEventPayload). -/
structure TaskEventPayload where
  title : String
  description : Option String := none
  status : String
  priority : String := "medium"
  tags : Option (List String) := none
  due_date : Option String := none
  recurring_pattern : String := "none"
  recurring_interval : Nat := 1
  changed_fields : Option (List String) := none
deriving DecidableEq, Repr

/-- Data envelope for task events (TaskEventData). -/
structure TaskEventData where
  task_id : String
  user_id : String
  sequence : Nat
  idempotency_key : String
  payload : TaskEventPayload
deriving DecidableEq, Repr

/-- Data envelope for reminder events (ReminderEventData). -/
structure ReminderEventData where
  task_id : String
  user_id : String
  due_date : String
  reminder_time : String
  notification_channels : List String := ["email", "push"]
  user_email : Option String := none
  device_tokens : Option (List String) := none
deriving DecidableEq, Repr

/-- Data envelope for sync events (TaskUpdateEventData); the changed_fields
dict is modelled as an association list of field name to rendered value. -/
structure TaskUpdateEventData where
  task_id : String
  user_id : String
  sequence : Nat
  changed_fields : List (String × String)
deriving DecidableEq, Repr

/-- The data dict of a CloudEvent, one variant per builder. -/
inductive EventData where
  | task (d : TaskEventData)
  | reminder (d : ReminderEventData)
  | sync (d : TaskUpdateEventData)
deriving DecidableEq, Repr

/-- The idempotency_key entry of the data dict, when present. -/
def EventData.idempotencyKey : EventData → Option String
  | .task d => some d.idempotency_key
  | .reminder _ => none
  | .sync _ => none

/-- CloudEvents 1.0 envelope (class CloudEvent). -/
structure CloudEvent where
  specversion : String := "1.0"
  type : String
  source : String := "backend-api"
  id : String
  time : String
  datacontenttype : String := "application/json"
  data : EventData
deriving DecidableEq, Repr

/-- CloudEvent.create_task_event: the fresh uuid4 is drawn once into
event_id and used both as the envelope id and as data.idempotency_key. -/
def CloudEvent.create_task_event (freshUuid now : String) (event_type : String)
    (task_id user_id : String) (sequence : Nat) (payload : TaskEventPayload) :
    CloudEvent :=
  let event_id := freshUuid
  { type := event_type
    id := event_id
    time := now
    data := .task
      { task_id := task_id
        user_id := user_id
        sequence := sequence
        idempotency_key := event_id
        payload := payload } }

/-- CloudEvent.create_reminder_event: the envelope id comes from the field
default factory (a fresh uuid4). -/
def CloudEvent.create_reminder_event (freshUuid now : String) (event_type : String)
    (task_id user_id : String) (due_date reminder_time : String)
    (notification_channels : Option (List String) := none)
    (user_email : Option String := none)
    (device_tokens : Option (List String) := none) : CloudEvent :=
  { type := event_type
    id := freshUuid
    time := now
    data := .reminder
      { task_id := task_id
        user_id := user_id
        due_date := due_date
        reminder_time := reminder_time
        notification_channels := notification_channels.getD ["email", "push"]
        user_email := user_email
        device_tokens := device_tokens } }

/-- CloudEvent.create_sync_event. -/
def CloudEvent.create_sync_event (freshUuid now : String)
    (task_id user_id : String) (sequence : Nat)
    (changed_fields : List (String × String)) : CloudEvent :=
  { type := "com.todo.task.sync"
    id := freshUuid
    time := now
    data := .sync
      { task_id := task_id
        user_id := user_id
        sequence := sequence
        changed_fields := changed_fields } }

/-! ### Python exceptions relevant to the embedded functions -/

/-- Exceptions that the embedded code can raise or catch. -/
inductive PyExc where
  | connectError                  -- httpx.ConnectError
  | httpStatusError (status : Nat) -- httpx.HTTPStatusError from raise_for_status
  | timeoutException              -- httpx.TimeoutException
  | attributeError                -- AttributeError (e.g. None.lower())
  | valueError                    -- ValueError (e.g. fromisoformat failure)
  | other                         -- any other Exception
deriving DecidableEq, Repr

/-! ### publish_event (events/publisher.py)

The single POST to the Dapr sidecar has one of three outcomes, passed in as
a parameter: a response with some status code, a connection error, or any
other exception raised inside the try block (timeout, serialization, ...). -/

/-- Outcome of the HTTP POST inside publish_event. -/
inductive TransportOutcome where
  | response (status : Nat)
  | connectError
  | otherException
deriving DecidableEq, Repr

/-- The try-block body of publish_event: client.post followed by
response.raise_for_status(), which raises HTTPStatusError for any 4xx or
5xx status. Exceptions propagate as Except.error. -/
def postAndRaiseForStatus : TransportOutcome → Except PyExc Unit
  | .response s => if 400 ≤ s then .error (.httpStatusError s) else .ok ()
  | .connectError => .error .connectError
  | .otherException => .error .other

/-- publish_event: wraps the try body in the three except clauses
(ConnectError, HTTPStatusError, Exception), each returning False after
logging; an uncaught exception would surface as Except.error. -/
def publish_event (o : TransportOutcome) : Except PyExc Bool :=
  match postAndRaiseForStatus o with
  | .ok () => .ok true
  | .error .connectError => .ok false
  | .error (.httpStatusError _) => .ok false
  | .error _ => .ok false

/-! ### Recurrence date math (services/recurring-task/task_creator.py)

Datetimes are modelled as a calendar structure; timedelta(days=n) is n
successive day increments; dateutil relativedelta(months=1)/(years=1)
advances the month or year and clamps the day to the last valid day of the
target month. -/

/-- A parsed datetime value (year, month 1-12, day, hour, minute). -/
structure PyDateTime where
  year : Nat
  month : Nat
  day : Nat
  hour : Nat := 0
  minute : Nat := 0
deriving DecidableEq, Repr

/-- Gregorian leap-year rule. -/
def isLeapYear (y : Nat) : Bool :=
  y % 4 = 0 && (y % 100 != 0 || y % 400 = 0)

/-- Number of days in a month of a given year. -/
def daysInMonth (y m : Nat) : Nat :=
  if m = 2 then (if isLeapYear y then 29 else 28)
  else if m = 4 || m = 6 || m = 9 || m = 11 then 30
  else 31

/-- Advance a datetime by one calendar day, rolling over month and year. -/
def addOneDay (d : PyDateTime) : PyDateTime :=
  if d.day < daysInMonth d.year d.month then { d with day := d.day + 1 }
  else if d.month < 12 then { d with month := d.month + 1, day := 1 }
  else { d with year := d.year + 1, month := 1, day := 1 }

/-- timedelta(days=n): n successive day increments (time of day kept). -/
def addDays (n : Nat) (d : PyDateTime) : PyDateTime :=
  addOneDay^[n] d

/-- relativedelta(months=1): next month, day clamped to the last valid day
of the target month (so Jan 31 + 1 month is Feb 28/29). -/
def addOneMonth (d : PyDateTime) : PyDateTime :=
  let y := if d.month = 12 then d.year + 1 else d.year
  let m := if d.month = 12 then 1 else d.month + 1
  { d with year := y, month := m, day := min d.day (daysInMonth y m) }

/-- relativedelta(years=1): next year, day clamped (so Feb 29 + 1 year is
Feb 28 on a non-leap target year). -/
def addOneYear (d : PyDateTime) : PyDateTime :=
  { d with
    year := d.year + 1
    day := min d.day (daysInMonth (d.year + 1) d.month) }

/-- Lowercase one ASCII character, as str.lower does on the letters that
can occur in a recurrence pattern. -/
def lcChar (c : Char) : Char :=
  if c.isUpper then Char.ofNat (c.toNat + 32) else c

/-- str.lower for pattern strings. -/
def strLower (s : String) : String := ⟨s.data.map lcChar⟩

/-- The current_due_date argument of calculate_next_due_date, carrying the
outcome of datetime.fromisoformat: a falsy value (None or empty string), a
string the parser rejects (ValueError), or a parsed datetime. -/
inductive DueDateInput where
  | missing
  | invalid
  | valid (d : PyDateTime)
deriving DecidableEq, Repr

/-- calculate_next_due_date: falsy due date returns None; an unparseable
due date is caught (ValueError) and returns None; then pattern.lower() is
evaluated, which raises AttributeError when pattern is None (this call is
outside the try block); known patterns dispatch to the date math above and
any other string returns None. -/
def calculate_next_due_date (current_due_date : DueDateInput)
    (pattern : Option String) : Except PyExc (Option PyDateTime) :=
  match current_due_date with
  | .missing => .ok none
  | .invalid => .ok none
  | .valid current =>
    match pattern with
    | none => .error .attributeError
    | some p =>
      let pattern_lower := strLower p
      if pattern_lower = "daily" then .ok (some (addDays 1 current))
      else if pattern_lower = "weekly" then .ok (some (addDays 7 current))
      else if pattern_lower = "monthly" then .ok (some (addOneMonth current))
      else if pattern_lower = "yearly" then .ok (some (addOneYear current))
      else .ok none

/-! ### create_next_task_occurrence (services/recurring-task/task_creator.py)

The POST to the task API inside the retry loop has an outcome per attempt,
supplied as a function from attempt index to outcome. The function result
is paired with the number of HTTP attempts actually made. -/

/-- Outcome of one POST to the task-creation endpoint. -/
inductive HttpOutcome where
  | response (status : Nat)
  | connectError
  | timeoutException
  | otherException
deriving DecidableEq, Repr

/-- Python truthiness test for an optional string (None and the empty
string are falsy). -/
def isFalsy : Option String → Bool
  | none => true
  | some s => s.isEmpty

/-- The payload dict nested in task event data, as read with .get by the
recurring-task service (absent keys give None; recurring_pattern is read
with default in the consumer but without default in task_creator). -/
structure TaskPayloadDict where
  title : Option String := none
  description : Option String := none
  priority : Option String := none
  tags : Option (List String) := none
  recurring_pattern : Option String := none
  due_date : DueDateInput := .missing
deriving DecidableEq, Repr

/-- The event data dict of a task lifecycle event, as read with .get. -/
structure TaskEventDataDict where
  task_id : Option String := none
  user_id : Option String := none
  payload : TaskPayloadDict := {}
deriving DecidableEq, Repr

/-- The for-attempt-in-range(MAX_RETRIES) loop of
create_next_task_occurrence: a 201 response returns True; a 400 or 422
response returns False without retrying; every other response status,
connection error, timeout, and unexpected exception falls through to the
next attempt; after the last attempt the loop exits and the function
returns False. The second component counts HTTP attempts made. -/
def createAttemptLoop (outcomes : Nat → HttpOutcome) :
    Nat → Nat → Bool × Nat
  | 0, attempt => (false, attempt)
  | fuel + 1, attempt =>
    match outcomes attempt with
    | .response s =>
      if s = 201 then (true, attempt + 1)
      else if s = 400 ∨ s = 422 then (false, attempt + 1)
      else createAttemptLoop outcomes fuel (attempt + 1)
    | .connectError => createAttemptLoop outcomes fuel (attempt + 1)
    | .timeoutException => createAttemptLoop outcomes fuel (attempt + 1)
    | .otherException => createAttemptLoop outcomes fuel (attempt + 1)

/-- An outcome the loop retries past: any response status other than 201,
400 and 422, and every caught exception. -/
def retryableOutcome : HttpOutcome → Bool
  | .response s => !(s = 201 || s = 400 || s = 422)
  | .connectError => true
  | .timeoutException => true
  | .otherException => true

/-- create_next_task_occurrence: validates user_id and title (Python
truthiness), computes the next due date, and aborts with False before any
HTTP attempt when validation fails, when the computed date is None, or
when calculate_next_due_date raises (the AttributeError from a None
pattern is caught by the outer except Exception); otherwise runs the
3-attempt retry loop. -/
def create_next_task_occurrence (event_data : TaskEventDataDict)
    (outcomes : Nat → HttpOutcome) : Bool × Nat :=
  let payload := event_data.payload
  if isFalsy event_data.user_id then (false, 0)
  else if isFalsy payload.title then (false, 0)
  else
    match calculate_next_due_date payload.due_date payload.recurring_pattern with
    | .error _ => (false, 0)
    | .ok none => (false, 0)
    | .ok (some _) => createAttemptLoop outcomes 3 0

/-! ### Recurring-task consumer (services/recurring-task/consumer.py and
main.py)

The processed-events set is a list of event ids; the result of the inner
create_next_task_occurrence call is abstracted as a boolean parameter. -/

/-- A received CloudEvent as read with .get by handle_task_event. -/
structure ConsumerEvent where
  id : Option String := none
  type : Option String := none
  data : TaskEventDataDict := {}
deriving DecidableEq, Repr

/-- handle_task_event: requires a truthy id; skips already-processed ids as
success; marks and acknowledges non-completion events and non-recurring
tasks; for a recurring completion, marks the id processed only when the
create succeeded, and returns False leaving the id unmarked otherwise. -/
def handle_task_event (event : ConsumerEvent) (createResult : Bool)
    (processed : List String) : Bool × List String :=
  match event.id with
  | none => (false, processed)
  | some event_id =>
    if event_id.isEmpty then (false, processed)
    else if event_id ∈ processed then (true, processed)
    else if event.type ≠ some "com.todo.task.completed" then
      (true, processed ++ [event_id])
    else
      let recurring_pattern := event.data.payload.recurring_pattern.getD "none"
      if recurring_pattern = "none" then (true, processed ++ [event_id])
      else if createResult then (true, processed ++ [event_id])
      else (false, processed)

/-- The parsed body of the POST from the transport (request.json). -/
inductive ParsedRequest where
  | ok (event : ConsumerEvent)
  | jsonError
deriving DecidableEq, Repr

/-- receive_task_event (main.py): a JSON parse failure raises and is
converted to a 500 response (triggering transport redelivery); otherwise
the handler result is mapped to a 200 response whose body status field is
processed or failed — 200 in both cases, so the transport acknowledges. -/
def receive_task_event : ParsedRequest → Bool → List String →
    (Nat × String) × List String
  | .jsonError, _, processed => ((500, "error"), processed)
  | .ok event, createResult, processed =>
    let r := handle_task_event event createResult processed
    if r.1 then ((200, "processed"), r.2) else ((200, "failed"), r.2)

/-! ### write_audit_log (services/audit/logger.py)

The audit table is a list of rows keyed by event_id (a list, so that
exactly-one-row is expressible as a count). Each of the three attempts has
a database outcome supplied as a function of the attempt index. -/

/-- Outcome of the database work of one attempt: the session commits, the
commit raises IntegrityError (a racing writer inserted the same event_id
after our existence check), the session raises OperationalError, or some
other exception occurs. -/
inductive AuditDbOutcome where
  | commitOk
  | integrityError
  | operationalError
  | otherError
deriving DecidableEq, Repr

/-- One attempt of the write_audit_log loop body. Returns the final result
and new table when the attempt finishes, or none when the attempt hit
OperationalError and the loop should retry: on a committed session, an
existing row is skipped idempotently (return True) and a fresh event_id
is inserted; IntegrityError is caught and treated as success without our
row being written; any other exception returns False. -/
def auditAttempt (rows : List String) (event_id : String) :
    AuditDbOutcome → Option (Bool × List String)
  | .commitOk =>
    if event_id ∈ rows then some (true, rows)
    else some (true, rows ++ [event_id])
  | .integrityError => some (true, rows)
  | .operationalError => none
  | .otherError => some (false, rows)

/-- The for-attempt-in-range(max_retries) loop of write_audit_log:
OperationalError sleeps and continues unless this was the final attempt,
which returns False; the unreachable fall-through after the loop also
returns False. -/
def auditLoop (event_id : String) (outcomes : Nat → AuditDbOutcome) :
    Nat → Nat → List String → Bool × List String
  | 0, _, rows => (false, rows)
  | fuel + 1, attempt, rows =>
    match auditAttempt rows event_id (outcomes attempt) with
    | some r => r
    | none =>
      if fuel = 0 then (false, rows)
      else auditLoop event_id outcomes fuel (attempt + 1) rows

/-- write_audit_log with max_retries = 3. -/
def write_audit_log (event_id : String) (outcomes : Nat → AuditDbOutcome)
    (rows : List String) : Bool × List String :=
  auditLoop event_id outcomes 3 0 rows

/-! ### ConnectionManager (services/sync/websocket.py)

The dict user_id to set-of-websockets is modelled as the finite set of
present keys plus a value function that is the empty set off the keys;
websocket handles are natural numbers. Which sends fail during a
broadcast is a parameter (the list of dead connection handles). -/

/-- The active_connections dict. -/
structure ConnState where
  keys : Finset String
  conns : String → Finset Nat

/-- The freshly initialized manager: an empty dict. -/
def initConn : ConnState := ⟨∅, fun _ => ∅⟩

/-- connect: create the empty set for a first-time user, then add the
websocket to the user entry. -/
def ConnState.connect (s : ConnState) (user_id : String) (c : Nat) : ConnState :=
  { keys := insert user_id s.keys
    conns := Function.update s.conns user_id (insert c (s.conns user_id)) }

/-- disconnect: for a present user, discard the websocket and delete the
user key entirely when its set becomes empty; absent users are untouched. -/
def ConnState.disconnect (s : ConnState) (user_id : String) (c : Nat) : ConnState :=
  if user_id ∈ s.keys then
    let remaining := (s.conns user_id).erase c
    if remaining = ∅ then
      { keys := s.keys.erase user_id
        conns := Function.update s.conns user_id ∅ }
    else
      { keys := s.keys, conns := Function.update s.conns user_id remaining }
  else s

/-- broadcast_to_user: returns immediately when the user has no entry;
otherwise takes a snapshot of the user connection set, sends to each, and
disconnects every connection whose send raised (the dead parameter lists
the handles whose send fails). -/
def ConnState.broadcast_to_user (s : ConnState) (user_id : String)
    (dead : List Nat) : ConnState :=
  if user_id ∈ s.keys then
    let snapshot := s.conns user_id
    let disconnected := dead.filter (fun c => c ∈ snapshot)
    disconnected.foldl (fun st c => st.disconnect user_id c) s
  else s

/-- get_connection_count: the sum of the set sizes over the dict values. -/
def get_connection_count (s : ConnState) : Nat :=
  s.keys.sum (fun u => (s.conns u).card)

/-- The set of registered (user, connection) pairs of the dict. -/
def registeredPairs (s : ConnState) : Finset (String × Nat) :=
  s.keys.biUnion (fun u => (s.conns u).image (fun c => (u, c)))

/-- The registry invariant: every present key has a nonempty connection
set, and the value function is the empty set off the present keys. -/
def ConnInv (s : ConnState) : Prop :=
  (∀ u ∈ s.keys, s.conns u ≠ ∅) ∧ (∀ u, u ∉ s.keys → s.conns u = ∅)

/-- One ConnectionManager call. -/
inductive RegistryOp where
  | connect (user_id : String) (c : Nat)
  | disconnect (user_id : String) (c : Nat)
  | broadcast (user_id : String) (dead : List Nat)

/-- Apply one call to the registry state. -/
def applyOp (s : ConnState) : RegistryOp → ConnState
  | .connect u c => s.connect u c
  | .disconnect u c => s.disconnect u c
  | .broadcast u dead => s.broadcast_to_user u dead

/-- Run a sequence of calls against a fresh manager. -/
def runOps (ops : List RegistryOp) : ConnState :=
  ops.foldl applyOp initConn

/-! ### Event emission of create_task (routers/tasks.py)

Only the emission decisions matter here; instants are minutes on an
integer timeline, so due_date - 15min is subtraction by 15. The events are
listed in the order the handler publishes them. -/

/-- One publish call made by the create_task handler. -/
inductive EmittedEvent where
  | taskCreated
  | syncCreated
  | reminderSchedule (due_date reminder_time : Int)
deriving DecidableEq, Repr

/-- The publish calls of create_task after the commit: task.created, the
sync event, and — only when the task has a due date whose reminder time
(due_date - 15 minutes) is still strictly in the future — one
reminder.schedule with that reminder time. -/
def create_task_emissions (due_date : Option Int) (now : Int) :
    List EmittedEvent :=
  [.taskCreated, .syncCreated] ++
    (match due_date with
     | some d =>
       let reminder_time := d - 15
       if reminder_time > now then [.reminderSchedule d reminder_time] else []
     | none => [])

/-- The reminder times of the reminder.schedule events in an emission
list. -/
def reminderTimes (l : List EmittedEvent) : List Int :=
  l.filterMap (fun e =>
    match e with
    | .reminderSchedule _ rt => some rt
    | _ => none)

theorem runSeq_length (s : SeqState) (l : List String) :
    (runSeq s l).length = l.length := by
  induction l generalizing s with
  | nil => rfl
  | cons t ts ih => simp [runSeq, ih]

theorem runSeq_get (s : SeqState) (l : List String) (i : Nat) (h : i < l.length) :
    (runSeq s l).get ⟨i, by rw [runSeq_length]; exact h⟩ =
      s (l.get ⟨i, h⟩) + (l.take (i + 1)).count (l.get ⟨i, h⟩) := by
  induction l generalizing s i with
  | nil => exact absurd h (Nat.not_lt_zero i)
  | cons t ts ih =>
    cases i with
    | zero =>
      simp [runSeq, getNextSequence, List.count_cons]
    | succ j =>
      have hj : j < ts.length := Nat.lt_of_succ_lt_succ h
      have := ih (Function.update s t (s t + 1)) j hj
      simp only [runSeq, getNextSequence, List.get_cons_succ, List.take_succ_cons,
        List.count_cons] at *
      simp only [List.get_eq_getElem, beq_iff_eq] at this ⊢
      rw [this]
      by_cases hx : t = ts[j]
      · rw [← hx, Function.update_same, if_pos rfl]
        omega
      · rw [Function.update_noteq (fun hc => hx hc.symm), if_neg hx]
        omega

end TodoEvents

/-- C1: starting from the empty counter dict, the i-th call of the sequence
allocator in an arbitrary interleaved call sequence returns exactly the
number of calls made so far for that task_id, so each task_id sees
1, 2, 3, ... with no gaps or repeats and distinct task_ids never affect
each other. -/
theorem seq_allocator_nth_call (l : List String) (i : Nat) (h : i < l.length) :
    (TodoEvents.runSeq TodoEvents.seqInit l).get
        ⟨i, by rw [TodoEvents.runSeq_length]; exact h⟩ =
      (l.take (i + 1)).count (l.get ⟨i, h⟩) :=
  (TodoEvents.runSeq_get TodoEvents.seqInit l i h).trans (Nat.zero_add _)

/-- Witness for C1: in the call sequence A, B, A the third call returns 2
(the second call ever for task A). -/
theorem seq_allocator_nth_call_witness :
    (TodoEvents.runSeq TodoEvents.seqInit ["task-A", "task-B", "task-A"]).get
        ⟨2, by decide⟩ = 2 :=
  (seq_allocator_nth_call ["task-A", "task-B", "task-A"] 2 (by decide)).trans
    (by decide)

/-- C5: publish_event is total over all transport outcomes and never
propagates an exception to its caller: every outcome yields Except.ok,
with ok true exactly on a success status, and ok false after a connect
error, an HTTP error status, or any other exception. -/
theorem publish_event_total_and_boolean :
    (∀ o, TodoEvents.publish_event o = .ok true ∨
      TodoEvents.publish_event o = .ok false) ∧
    (∀ s, s < 400 → TodoEvents.publish_event (.response s) = .ok true) ∧
    (∀ s, 400 ≤ s → TodoEvents.publish_event (.response s) = .ok false) ∧
    TodoEvents.publish_event .connectError = .ok false ∧
    TodoEvents.publish_event .otherException = .ok false := by
  refine ⟨fun o => ?_, fun s hs => ?_, fun s hs => ?_, rfl, rfl⟩
  · cases o with
    | response s =>
      simp only [TodoEvents.publish_event, TodoEvents.postAndRaiseForStatus]
      split <;> simp
    | connectError => exact Or.inr rfl
    | otherException => exact Or.inr rfl
  · simp [TodoEvents.publish_event, TodoEvents.postAndRaiseForStatus,
      Nat.not_le.mpr hs]
  · simp [TodoEvents.publish_event, TodoEvents.postAndRaiseForStatus, hs]

/-- Witness for C5: a 204 success returns ok true; a 500 error status and a
404 error status return ok false. -/
theorem publish_event_total_and_boolean_witness :
    TodoEvents.publish_event (.response 204) = .ok true ∧
    TodoEvents.publish_event (.response 500) = .ok false ∧
    TodoEvents.publish_event (.response 404) = .ok false :=
  ⟨publish_event_total_and_boolean.2.1 204 (by decide),
   publish_event_total_and_boolean.2.2.1 500 (by decide),
   publish_event_total_and_boolean.2.2.1 404 (by decide)⟩

/-- C4: calculate_next_due_date adds one day for daily and seven days for
weekly, performs calendar-aware month and year addition with end-of-month
and leap-day clamping (Jan 31 2024 + 1 month is Feb 29 2024; Feb 29 2024 +
1 year is Feb 28 2025), and a missing due date yields None for every
pattern. -/
theorem calculate_next_due_date_patterns :
    (∀ d, TodoEvents.calculate_next_due_date (.valid d) (some "daily") =
      .ok (some (TodoEvents.addDays 1 d))) ∧
    (∀ d, TodoEvents.calculate_next_due_date (.valid d) (some "weekly") =
      .ok (some (TodoEvents.addDays 7 d))) ∧
    TodoEvents.calculate_next_due_date
        (.valid ⟨2024, 1, 31, 10, 0⟩) (some "monthly") =
      .ok (some ⟨2024, 2, 29, 10, 0⟩) ∧
    TodoEvents.calculate_next_due_date
        (.valid ⟨2024, 2, 29, 10, 0⟩) (some "yearly") =
      .ok (some ⟨2025, 2, 28, 10, 0⟩) ∧
    TodoEvents.calculate_next_due_date
        (.valid ⟨2024, 2, 28, 10, 0⟩) (some "daily") =
      .ok (some ⟨2024, 2, 29, 10, 0⟩) ∧
    TodoEvents.calculate_next_due_date
        (.valid ⟨2024, 1, 31, 10, 0⟩) (some "weekly") =
      .ok (some ⟨2024, 2, 7, 10, 0⟩) ∧
    (∀ pattern, TodoEvents.calculate_next_due_date .missing pattern = .ok none) :=
  ⟨fun _ => rfl, fun _ => rfl, rfl, rfl, rfl, rfl, fun _ => rfl⟩

/-- C2: every task lifecycle event built by CloudEvent.create_task_event has
data.idempotency_key equal to the envelope id, for every event type,
task_id, user_id, sequence and payload. -/
theorem create_task_event_idempotency_key (freshUuid now event_type : String)
    (task_id user_id : String) (sequence : Nat)
    (payload : TodoEvents.TaskEventPayload) :
    (TodoEvents.CloudEvent.create_task_event freshUuid now event_type task_id
        user_id sequence payload).data.idempotencyKey =
      some (TodoEvents.CloudEvent.create_task_event freshUuid now event_type
        task_id user_id sequence payload).id :=
  rfl

/-- C6: on task creation a reminder.schedule event with reminder time
due_date - 15 minutes is emitted if and only if the task has a due date
and that reminder time is still strictly in the future; otherwise no
reminder event is emitted, and when one is emitted it is the only one. -/
theorem create_task_reminder_iff (now : Int) (due_date : Option Int) :
    (∀ d, due_date = some d → now < d - 15 →
      TodoEvents.reminderTimes (TodoEvents.create_task_emissions due_date now) =
        [d - 15]) ∧
    (∀ d, due_date = some d → ¬now < d - 15 →
      TodoEvents.reminderTimes (TodoEvents.create_task_emissions due_date now) =
        []) ∧
    (due_date = none →
      TodoEvents.reminderTimes (TodoEvents.create_task_emissions due_date now) =
        []) := by
  refine ⟨fun d hd h => ?_, fun d hd h => ?_, fun hd => ?_⟩ <;> subst hd
  · simp [TodoEvents.create_task_emissions, TodoEvents.reminderTimes, h]
  · simp [TodoEvents.create_task_emissions, TodoEvents.reminderTimes, h]
  · simp [TodoEvents.create_task_emissions, TodoEvents.reminderTimes]

/-- Witness for C6: with now = 0, a due date of 60 minutes emits exactly
one reminder at 45 minutes, and a due date of 10 minutes emits none. -/
theorem create_task_reminder_iff_witness :
    TodoEvents.reminderTimes (TodoEvents.create_task_emissions (some 60) 0) =
      [45] ∧
    TodoEvents.reminderTimes (TodoEvents.create_task_emissions (some 10) 0) =
      [] :=
  ⟨((create_task_reminder_iff 0 (some 60)).1 60 rfl (by decide)).trans
      (by decide),
   (create_task_reminder_iff 0 (some 10)).2.1 10 rfl (by decide)⟩

/-- C3: writing an audit row for a fresh event_id succeeds and persists
exactly one row; a second call for the same event_id returns True without
writing anything; and an IntegrityError raised by a racing redelivery that
passed the existence check is treated as success, not failure. -/
theorem write_audit_log_idempotent (event_id : String) (rows : List String)
    (o1 o2 o3 : Nat → TodoEvents.AuditDbOutcome)
    (hfresh : event_id ∉ rows) (h1 : o1 0 = .commitOk) (h2 : o2 0 = .commitOk)
    (h3 : o3 0 = .integrityError) :
    TodoEvents.write_audit_log event_id o1 rows =
      (true, rows ++ [event_id]) ∧
    (rows ++ [event_id]).count event_id = 1 ∧
    TodoEvents.write_audit_log event_id o2 (rows ++ [event_id]) =
      (true, rows ++ [event_id]) ∧
    TodoEvents.write_audit_log event_id o3 rows = (true, rows) := by
  refine ⟨?_, ?_, ?_, ?_⟩
  · simp [TodoEvents.write_audit_log, TodoEvents.auditLoop,
      TodoEvents.auditAttempt, h1, hfresh]
  · rw [List.count_append, List.count_eq_zero.mpr hfresh]
    simp
  · simp [TodoEvents.write_audit_log, TodoEvents.auditLoop,
      TodoEvents.auditAttempt, h2]
  · simp [TodoEvents.write_audit_log, TodoEvents.auditLoop,
      TodoEvents.auditAttempt, h3]

/-- Witness for C3: event e-1 written into an empty table, re-delivered,
and hit by a racing duplicate insert. -/
theorem write_audit_log_idempotent_witness :
    TodoEvents.write_audit_log "e-1" (fun _ => .commitOk) [] =
      (true, ["e-1"]) ∧
    ((["e-1"] : List String)).count "e-1" = 1 ∧
    TodoEvents.write_audit_log "e-1" (fun _ => .commitOk) ["e-1"] =
      (true, ["e-1"]) ∧
    TodoEvents.write_audit_log "e-1" (fun _ => .integrityError) [] =
      (true, []) := by
  have h := write_audit_log_idempotent "e-1" [] (fun _ => .commitOk)
    (fun _ => .commitOk) (fun _ => .integrityError)
    (by decide) rfl rfl rfl
  simpa using h

theorem createAttemptLoop_step_retry (outcomes : Nat → TodoEvents.HttpOutcome)
    (fuel attempt : Nat)
    (h : TodoEvents.retryableOutcome (outcomes attempt) = true) :
    TodoEvents.createAttemptLoop outcomes (fuel + 1) attempt =
      TodoEvents.createAttemptLoop outcomes fuel (attempt + 1) := by
  cases o : outcomes attempt with
  | response s =>
    have h1 : s ≠ 201 := by
      intro hs; rw [o, hs] at h; simp [TodoEvents.retryableOutcome] at h
    have h2 : s ≠ 400 := by
      intro hs; rw [o, hs] at h; simp [TodoEvents.retryableOutcome] at h
    have h3 : s ≠ 422 := by
      intro hs; rw [o, hs] at h; simp [TodoEvents.retryableOutcome] at h
    simp [TodoEvents.createAttemptLoop, o, h1, h2, h3]
  | connectError => simp [TodoEvents.createAttemptLoop, o]
  | timeoutException => simp [TodoEvents.createAttemptLoop, o]
  | otherException => simp [TodoEvents.createAttemptLoop, o]

theorem createAttemptLoop_perm_stop (outcomes : Nat → TodoEvents.HttpOutcome) :
    ∀ (k fuel attempt : Nat), k < fuel →
    (∀ j, j < k → TodoEvents.retryableOutcome (outcomes (attempt + j)) = true) →
    (outcomes (attempt + k) = .response 400 ∨
      outcomes (attempt + k) = .response 422) →
    TodoEvents.createAttemptLoop outcomes fuel attempt =
      (false, attempt + k + 1) := by
  intro k
  induction k with
  | zero =>
    intro fuel attempt hk _ hperm
    cases fuel with
    | zero => exact absurd hk (Nat.lt_irrefl 0)
    | succ f =>
      rw [Nat.add_zero] at hperm
      rcases hperm with h4 | h4 <;> simp [TodoEvents.createAttemptLoop, h4]
  | succ k ih =>
    intro fuel attempt hk hretry hperm
    cases fuel with
    | zero => exact absurd hk (Nat.not_lt_zero _)
    | succ f =>
      rw [createAttemptLoop_step_retry outcomes f attempt
        (by simpa using hretry 0 (Nat.succ_pos k))]
      have e1 : ∀ j : Nat, attempt + 1 + j = attempt + (j + 1) := by omega
      have := ih f (attempt + 1) (Nat.lt_of_succ_lt_succ hk)
        (fun j hj => by rw [e1 j]; exact hretry (j + 1) (Nat.succ_lt_succ hj))
        (by rw [e1 k]; exact hperm)
      rw [this]
      congr 1
      omega

theorem createAttemptLoop_all_retry (outcomes : Nat → TodoEvents.HttpOutcome) :
    ∀ (fuel attempt : Nat),
    (∀ k, k < fuel → TodoEvents.retryableOutcome (outcomes (attempt + k)) = true) →
    TodoEvents.createAttemptLoop outcomes fuel attempt = (false, attempt + fuel) := by
  intro fuel
  induction fuel with
  | zero => intro attempt _; simp [TodoEvents.createAttemptLoop]
  | succ f ih =>
    intro attempt h
    rw [createAttemptLoop_step_retry outcomes f attempt
      (by simpa using h 0 (Nat.succ_pos f))]
    have e1 : ∀ k : Nat, attempt + 1 + k = attempt + (k + 1) := by omega
    rw [ih (attempt + 1) (fun k hk => by
      rw [e1 k]; exact h (k + 1) (Nat.succ_lt_succ hk))]
    congr 1
    omega

/-- Counterexample for C7: with a 404 response on the first attempt and a
201 on the second, create_next_task_occurrence retries past the 4xx and
returns True after two attempts, instead of returning False after the
first 4xx response as the claim states. -/
theorem create_4xx_retried_counterexample :
    TodoEvents.create_next_task_occurrence
        { user_id := some "user-1"
          payload := { title := some "Water plants"
                       recurring_pattern := some "weekly"
                       due_date := .valid ⟨2024, 1, 15, 10, 0⟩ } }
        (fun k => if k = 0 then .response 404 else .response 201) =
      (true, 2) ∧
    ((true, 2) : Bool × Nat) ≠ (false, 1) := by
  exact ⟨rfl, by decide⟩

/-- C7 as amended: only 400 and 422 responses are permanent rejections
that stop the loop immediately with False; every other response status
(including other 4xx such as 404) and every connection or timeout error
is retried, up to the 3-attempt limit. -/
theorem create_retry_policy (ev : TodoEvents.TaskEventDataDict)
    (outcomes : Nat → TodoEvents.HttpOutcome)
    (hu : TodoEvents.isFalsy ev.user_id = false)
    (ht : TodoEvents.isFalsy ev.payload.title = false)
    (hd : ∃ d, TodoEvents.calculate_next_due_date ev.payload.due_date
      ev.payload.recurring_pattern = .ok (some d)) :
    (∀ k, k < 3 →
      (∀ j, j < k → TodoEvents.retryableOutcome (outcomes j) = true) →
      (outcomes k = .response 400 ∨ outcomes k = .response 422) →
      TodoEvents.create_next_task_occurrence ev outcomes = (false, k + 1)) ∧
    ((∀ k, k < 3 → outcomes k = .connectError ∨
        outcomes k = .timeoutException) →
      TodoEvents.create_next_task_occurrence ev outcomes = (false, 3)) := by
  obtain ⟨d, hd⟩ := hd
  have hmain : TodoEvents.create_next_task_occurrence ev outcomes =
      TodoEvents.createAttemptLoop outcomes 3 0 := by
    simp [TodoEvents.create_next_task_occurrence, hu, ht, hd]
  constructor
  · intro k hk hretry hperm
    rw [hmain]
    have := createAttemptLoop_perm_stop outcomes k 3 0 hk
      (fun j hj => by simpa using hretry j hj) (by simpa using hperm)
    simpa using this
  · intro hall
    rw [hmain]
    have := createAttemptLoop_all_retry outcomes 3 0 (fun k hk => by
      rcases hall k hk with h | h <;> simp [TodoEvents.retryableOutcome, h])
    simpa using this

/-- Witness for C7 (amended): a valid recurring completion event hit by a
400 on the first attempt stops with False after one attempt; hit by
connection errors on all attempts, it stops with False after exactly
three. -/
theorem create_retry_policy_witness :
    TodoEvents.create_next_task_occurrence
        { user_id := some "user-1"
          payload := { title := some "Water plants"
                       recurring_pattern := some "weekly"
                       due_date := .valid ⟨2024, 1, 15, 10, 0⟩ } }
        (fun _ => .response 400) = (false, 1) ∧
    TodoEvents.create_next_task_occurrence
        { user_id := some "user-1"
          payload := { title := some "Water plants"
                       recurring_pattern := some "weekly"
                       due_date := .valid ⟨2024, 1, 15, 10, 0⟩ } }
        (fun _ => .connectError) = (false, 3) :=
  ⟨(create_retry_policy
      { user_id := some "user-1"
        payload := { title := some "Water plants"
                     recurring_pattern := some "weekly"
                     due_date := .valid ⟨2024, 1, 15, 10, 0⟩ } }
      (fun _ => .response 400) rfl rfl
      ⟨TodoEvents.addDays 7 ⟨2024, 1, 15, 10, 0⟩, rfl⟩).1 0 (by decide)
      (fun j hj => absurd hj (Nat.not_lt_zero j)) (Or.inl rfl),
   (create_retry_policy
      { user_id := some "user-1"
        payload := { title := some "Water plants"
                     recurring_pattern := some "weekly"
                     due_date := .valid ⟨2024, 1, 15, 10, 0⟩ } }
      (fun _ => .connectError) rfl rfl
      ⟨TodoEvents.addDays 7 ⟨2024, 1, 15, 10, 0⟩, rfl⟩).2
      (fun k _ => Or.inl rfl)⟩

/-- Counterexample for C10: for a missing (None) pattern and a parsed due
date, calculate_next_due_date raises AttributeError from pattern.lower()
instead of returning None. -/
theorem calc_none_pattern_counterexample :
    TodoEvents.calculate_next_due_date (.valid ⟨2024, 1, 15, 10, 0⟩) none =
      .error .attributeError ∧
    TodoEvents.calculate_next_due_date (.valid ⟨2024, 1, 15, 10, 0⟩) none ≠
      .ok none :=
  ⟨rfl, fun h => Except.noConfusion h⟩

/-- C10 as amended: for every pattern string whose lowercase form is not
daily, weekly, monthly or yearly, calculate_next_due_date returns None
regardless of the due date; a missing (None) pattern instead raises
AttributeError when the due date parses; and in either case
create_next_task_occurrence returns False without performing any
task-creation HTTP attempt (the AttributeError is caught by its outer
exception handler). -/
theorem calc_unknown_pattern_amended (p : String)
    (hp : ¬(TodoEvents.strLower p = "daily" ∨ TodoEvents.strLower p = "weekly" ∨
      TodoEvents.strLower p = "monthly" ∨ TodoEvents.strLower p = "yearly")) :
    (∀ due, TodoEvents.calculate_next_due_date due (some p) = .ok none) ∧
    (∀ (ev : TodoEvents.TaskEventDataDict)
        (outcomes : Nat → TodoEvents.HttpOutcome),
      ev.payload.recurring_pattern = some p →
      TodoEvents.create_next_task_occurrence ev outcomes = (false, 0)) ∧
    (∀ d, TodoEvents.calculate_next_due_date (.valid d) none =
      .error .attributeError) ∧
    (∀ (ev : TodoEvents.TaskEventDataDict)
        (outcomes : Nat → TodoEvents.HttpOutcome),
      ev.payload.recurring_pattern = none →
      TodoEvents.create_next_task_occurrence ev outcomes = (false, 0)) := by
  push_neg at hp
  obtain ⟨hp1, hp2, hp3, hp4⟩ := hp
  have hcalc : ∀ due, TodoEvents.calculate_next_due_date due (some p) =
      .ok none := by
    intro due
    cases due with
    | missing => rfl
    | invalid => rfl
    | valid d =>
      simp [TodoEvents.calculate_next_due_date, hp1, hp2, hp3, hp4]
  have hcalcNone : ∀ due, due = TodoEvents.DueDateInput.missing ∨
      due = TodoEvents.DueDateInput.invalid ∨
      (∃ d, due = TodoEvents.DueDateInput.valid d) := by
    intro due
    cases due with
    | missing => exact Or.inl rfl
    | invalid => exact Or.inr (Or.inl rfl)
    | valid d => exact Or.inr (Or.inr ⟨d, rfl⟩)
  refine ⟨hcalc, ?_, fun d => rfl, ?_⟩
  · intro ev outcomes hev
    cases hU : TodoEvents.isFalsy ev.user_id with
    | true => simp [TodoEvents.create_next_task_occurrence, hU]
    | false =>
      cases hT : TodoEvents.isFalsy ev.payload.title with
      | true => simp [TodoEvents.create_next_task_occurrence, hU, hT]
      | false =>
        simp [TodoEvents.create_next_task_occurrence, hU, hT, hev,
          hcalc ev.payload.due_date]
  · intro ev outcomes hev
    cases hU : TodoEvents.isFalsy ev.user_id with
    | true => simp [TodoEvents.create_next_task_occurrence, hU]
    | false =>
      cases hT : TodoEvents.isFalsy ev.payload.title with
      | true => simp [TodoEvents.create_next_task_occurrence, hU, hT]
      | false =>
        rcases hcalcNone ev.payload.due_date with hD | hD | ⟨d, hD⟩ <;>
          simp [TodoEvents.create_next_task_occurrence, hU, hT, hev, hD,
            TodoEvents.calculate_next_due_date]

/-- Witness for C10 (amended): pattern none (the literal string) with a
valid due date yields None and no HTTP attempt; a missing pattern on the
same event data yields False with no HTTP attempt. -/
theorem calc_unknown_pattern_amended_witness :
    TodoEvents.calculate_next_due_date (.valid ⟨2024, 5, 1, 9, 0⟩)
      (some "none") = .ok none ∧
    TodoEvents.create_next_task_occurrence
      { user_id := some "u-1"
        payload := { title := some "Walk"
                     recurring_pattern := some "none"
                     due_date := .valid ⟨2024, 5, 1, 9, 0⟩ } }
      (fun _ => .response 201) = (false, 0) ∧
    TodoEvents.create_next_task_occurrence
      { user_id := some "u-1"
        payload := { title := some "Walk"
                     recurring_pattern := none
                     due_date := .valid ⟨2024, 5, 1, 9, 0⟩ } }
      (fun _ => .response 201) = (false, 0) :=
  ⟨(calc_unknown_pattern_amended "none" (by decide)).1 _,
   (calc_unknown_pattern_amended "none" (by decide)).2.1 _ _ rfl,
   (calc_unknown_pattern_amended "none" (by decide)).2.2.2 _ _ rfl⟩

/-- Counterexample for C8: a recurring task.completed event whose create
exhausts its retries is indeed left out of the processed set, but the
endpoint still answers HTTP 200 (body status failed), which acknowledges
the event to the transport, so it is not left for transport redelivery as
the claim states. -/
theorem recurring_failure_acked_counterexample :
    TodoEvents.handle_task_event
        { id := some "evt-1", type := some "com.todo.task.completed"
          data := { payload := { recurring_pattern := some "weekly" } } }
        false [] = (false, []) ∧
    TodoEvents.receive_task_event
        (.ok { id := some "evt-1", type := some "com.todo.task.completed"
               data := { payload := { recurring_pattern := some "weekly" } } })
        false [] = ((200, "failed"), []) :=
  ⟨rfl, rfl⟩

/-- C8 as amended: for a recurring task.completed event, the event id is
added to the processed set exactly when create_next_task_occurrence
succeeded, and is left out on failure — but the HTTP endpoint returns 200
for every parsed event, acknowledging even failed ones to the transport
(only a request whose JSON parsing raises gets a 500 and transport
redelivery). -/
theorem recurring_processed_marking (ev : TodoEvents.ConsumerEvent)
    (event_id : String) (processed : List String) (createResult : Bool)
    (hid : ev.id = some event_id) (hne : event_id.isEmpty = false)
    (hnp : event_id ∉ processed)
    (htype : ev.type = some "com.todo.task.completed")
    (hpat : ev.data.payload.recurring_pattern.getD "none" ≠ "none") :
    (createResult = true →
      TodoEvents.handle_task_event ev createResult processed =
        (true, processed ++ [event_id])) ∧
    (createResult = false →
      TodoEvents.handle_task_event ev createResult processed =
        (false, processed)) ∧
    (∀ (pr : TodoEvents.ConsumerEvent) (b : Bool) (p : List String),
      (TodoEvents.receive_task_event (.ok pr) b p).1.1 = 200) ∧
    TodoEvents.receive_task_event .jsonError createResult processed =
      ((500, "error"), processed) := by
  refine ⟨?_, ?_, ?_, rfl⟩
  · intro hc
    subst hc
    simp [TodoEvents.handle_task_event, hid, hne, hnp, htype, hpat]
  · intro hc
    subst hc
    simp [TodoEvents.handle_task_event, hid, hne, hnp, htype, hpat]
  · intro pr b p
    have hred : TodoEvents.receive_task_event (.ok pr) b p =
        (let r := TodoEvents.handle_task_event pr b p
         if r.1 = true then ((200, "processed"), r.2)
         else ((200, "failed"), r.2)) := rfl
    rw [hred]
    dsimp only
    split <;> rfl

/-- Witness for C8 (amended): the concrete recurring completion event evt-2
is marked processed on success, left unmarked on failure, and both cases
are answered with HTTP 200. -/
theorem recurring_processed_marking_witness :
    TodoEvents.handle_task_event
        { id := some "evt-2", type := some "com.todo.task.completed"
          data := { payload := { recurring_pattern := some "daily" } } }
        true [] = (true, ["evt-2"]) ∧
    TodoEvents.handle_task_event
        { id := some "evt-2", type := some "com.todo.task.completed"
          data := { payload := { recurring_pattern := some "daily" } } }
        false [] = (false, []) ∧
    (TodoEvents.receive_task_event
        (.ok { id := some "evt-2", type := some "com.todo.task.completed"
               data := { payload := { recurring_pattern := some "daily" } } })
        false []).1.1 = 200 := by
  have h1 := recurring_processed_marking
    { id := some "evt-2", type := some "com.todo.task.completed"
      data := { payload := { recurring_pattern := some "daily" } } }
    "evt-2" [] true rfl rfl (by decide) rfl (by decide)
  have h2 := recurring_processed_marking
    { id := some "evt-2", type := some "com.todo.task.completed"
      data := { payload := { recurring_pattern := some "daily" } } }
    "evt-2" [] false rfl rfl (by decide) rfl (by decide)
  exact ⟨by simpa using h1.1 rfl, by simpa using h2.2.1 rfl,
    h2.2.2.1 _ false []⟩

theorem connInv_init : TodoEvents.ConnInv TodoEvents.initConn :=
  ⟨fun u hu => absurd hu (Finset.not_mem_empty u), fun _ _ => rfl⟩

theorem connInv_connect (s : TodoEvents.ConnState) (u : String) (c : Nat)
    (h : TodoEvents.ConnInv s) : TodoEvents.ConnInv (s.connect u c) := by
  obtain ⟨h1, h2⟩ := h
  constructor
  · intro v hv
    simp only [TodoEvents.ConnState.connect, Finset.mem_insert] at hv ⊢
    rcases hv with rfl | hv
    · rw [Function.update_same]
      exact (Finset.insert_nonempty c _).ne_empty
    · by_cases hvu : v = u
      · subst hvu
        rw [Function.update_same]
        exact (Finset.insert_nonempty c _).ne_empty
      · rw [Function.update_noteq hvu]
        exact h1 v hv
  · intro v hv
    simp only [TodoEvents.ConnState.connect, Finset.mem_insert, not_or] at hv ⊢
    obtain ⟨hvu, hv⟩ := hv
    rw [Function.update_noteq hvu]
    exact h2 v hv

theorem connInv_disconnect (s : TodoEvents.ConnState) (u : String) (c : Nat)
    (h : TodoEvents.ConnInv s) : TodoEvents.ConnInv (s.disconnect u c) := by
  obtain ⟨h1, h2⟩ := h
  simp only [TodoEvents.ConnState.disconnect]
  split
  case isTrue hmem =>
    split
    case isTrue hempty =>
      constructor
      · intro v hv
        dsimp only at hv ⊢
        have hvne : v ≠ u := (Finset.mem_erase.mp hv).1
        have hvk : v ∈ s.keys := (Finset.mem_erase.mp hv).2
        rw [Function.update_noteq hvne]
        exact h1 v hvk
      · intro v hv
        dsimp only at hv ⊢
        by_cases hvu : v = u
        · subst hvu
          rw [Function.update_same]
        · rw [Function.update_noteq hvu]
          refine h2 v (fun hvk => hv ?_)
          exact Finset.mem_erase.mpr ⟨hvu, hvk⟩
    case isFalse hne =>
      constructor
      · intro v hv
        dsimp only at hv ⊢
        by_cases hvu : v = u
        · subst hvu
          rw [Function.update_same]
          exact hne
        · rw [Function.update_noteq hvu]
          exact h1 v hv
      · intro v hv
        dsimp only at hv ⊢
        have hvu : v ≠ u := fun hh => hv (hh ▸ hmem)
        rw [Function.update_noteq hvu]
        exact h2 v hv
  case isFalse hmem => exact ⟨h1, h2⟩

theorem connInv_foldl_disconnect (u : String) (l : List Nat) :
    ∀ s, TodoEvents.ConnInv s →
      TodoEvents.ConnInv (l.foldl (fun st c => st.disconnect u c) s) := by
  induction l with
  | nil => exact fun s h => h
  | cons c cs ih => exact fun s h => ih _ (connInv_disconnect s u c h)

theorem connInv_broadcast (s : TodoEvents.ConnState) (u : String)
    (dead : List Nat) (h : TodoEvents.ConnInv s) :
    TodoEvents.ConnInv (s.broadcast_to_user u dead) := by
  simp only [TodoEvents.ConnState.broadcast_to_user]
  split
  · exact connInv_foldl_disconnect u _ s h
  · exact h

theorem connInv_foldl_ops (ops : List TodoEvents.RegistryOp) :
    ∀ s, TodoEvents.ConnInv s →
      TodoEvents.ConnInv (ops.foldl TodoEvents.applyOp s) := by
  induction ops with
  | nil => exact fun s h => h
  | cons op ops ih =>
    intro s h
    refine ih _ ?_
    cases op with
    | connect u c => exact connInv_connect s u c h
    | disconnect u c => exact connInv_disconnect s u c h
    | broadcast u dead => exact connInv_broadcast s u dead h

theorem count_eq_pairs (s : TodoEvents.ConnState) :
    TodoEvents.get_connection_count s = (TodoEvents.registeredPairs s).card := by
  unfold TodoEvents.get_connection_count TodoEvents.registeredPairs
  rw [Finset.card_biUnion]
  · exact Finset.sum_congr rfl fun u _ =>
      (Finset.card_image_of_injective _
        (fun a b hab => congrArg Prod.snd hab)).symm
  · intro x hx y hy hxy
    rw [Finset.disjoint_left]
    intro p hpx hpy
    rw [Finset.mem_image] at hpx hpy
    obtain ⟨a, _, rfl⟩ := hpx
    obtain ⟨b, _, hb⟩ := hpy
    exact hxy (congrArg Prod.fst hb).symm

/-- C9: over every sequence of ConnectionManager operations no present user
key maps to an empty connection set; get_connection_count always equals
the number of registered (user, connection) pairs; the sequence
connect(u,c1), connect(u,c2), disconnect(u,c1) leaves exactly c2
registered for u; and broadcasting to a user with no connections leaves
the registry unchanged (in particular it creates no entry). -/
theorem connection_manager_registry :
    (∀ ops : List TodoEvents.RegistryOp,
      TodoEvents.ConnInv (TodoEvents.runOps ops)) ∧
    (∀ s : TodoEvents.ConnState,
      TodoEvents.get_connection_count s = (TodoEvents.registeredPairs s).card) ∧
    ((TodoEvents.runOps
        [.connect "u" 1, .connect "u" 2, .disconnect "u" 1]).conns "u" =
      {2} ∧
     (TodoEvents.runOps
        [.connect "u" 1, .connect "u" 2, .disconnect "u" 1]).keys =
      {"u"}) ∧
    (∀ (s : TodoEvents.ConnState) (u : String) (dead : List Nat),
      u ∉ s.keys → TodoEvents.ConnState.broadcast_to_user s u dead = s) := by
  refine ⟨fun ops => connInv_foldl_ops ops TodoEvents.initConn connInv_init,
    count_eq_pairs, ⟨by decide, by decide⟩, ?_⟩
  intro s u dead h
  simp only [TodoEvents.ConnState.broadcast_to_user]
  rw [if_neg h]

/-- Witness for C9: broadcasting to user v on a fresh manager (no entry for
v) returns the manager unchanged. -/
theorem connection_manager_registry_witness :
    TodoEvents.ConnState.broadcast_to_user TodoEvents.initConn "v" [7] =
      TodoEvents.initConn :=
  connection_manager_registry.2.2.2 TodoEvents.initConn "v" [7] (by decide)
